import Mathlib

/-!
Shallow embedding of `run_py_openmdao_ccblade.py`, a runnable example script
that wires an OpenMDAO propeller-blade optimization problem out of external
components.  The script's effectful API calls are modelled as an explicit
event trace (`mainEvents`), the pure wrapper `ccblade_interp` as a list
function, `make_plots` as a trace of plot events over an abstract problem
state, and the `__main__` timing loop by the list of timed invocations.
-/

namespace CCBlade

/-- Translation of the inner function `ccblade_interp(alpha, Re, Mach)`:
arrays are flat lists, the N-by-2 array built by concatenating the flattened
`alpha` and `Re` columns is the zipped list of pairs, the external
interpolant is an abstract function on such row lists, and `y[..., 0]`,
`y[..., 1]` are the two column projections. -/
def ccblade_interp {α μ : Type} (interp : List (α × α) → List (α × α))
    (alpha Re : List α) (Mach : μ) : List α × List α :=
  let x := alpha.zip Re
  let y := interp x
  (y.map Prod.fst, y.map Prod.snd)

/-- Restatement of the spec claim for `ccblade_interp`: it returns exactly
the pair of columns of the interpolant applied to the zipped input, with no
computation of its own. -/
def ccblade_interp_claim {α μ : Type} (interp : List (α × α) → List (α × α))
    (alpha Re : List α) (Mach : μ) : List α × List α :=
  ((interp (alpha.zip Re)).map Prod.fst, (interp (alpha.zip Re)).map Prod.snd)

/-- Constant `num_nodes = 1` from `main`. -/
def num_nodes : ℕ := 1

/-- Constant `num_blades = 3` from `main`. -/
def num_blades : ℕ := 3

/-- Constant `num_radial = 15` from `main`. -/
def num_radial : ℕ := 15

/-- Constant `num_cp = 6` from `main`. -/
def num_cp : ℕ := 6

/-- Initial chord value `chord = 10.` from `main` (cm). -/
def chord : ℝ := 10

/-- Translation of `np.linspace(a, b, n)`: `n` evenly spaced samples from
`a` to `b` inclusive, the i-th being `a + i*(b-a)/(n-1)`. -/
noncomputable def linspace (a b : ℝ) (n : ℕ) : List ℝ :=
  (List.range n).map fun i => a + (i : ℝ) * (b - a) / ((n : ℝ) - 1)

/-- Initial twist vector `theta = np.linspace(65., 25., num_cp)*np.pi/180.`
from `main` (radians). -/
noncomputable def theta : List ℝ :=
  (linspace 65 25 num_cp).map fun d => d * Real.pi / 180

/-- Constant `pitch = 0.` from `main`. -/
def pitch : ℝ := 0

/-- Constant `hub_diameter = 30.` from `main` (cm). -/
def hub_diameter : ℝ := 30

/-- Constant `prop_diameter = 150.` from `main` (cm). -/
def prop_diameter : ℝ := 150

/-- Speed of sound `c0 = sqrt(1.4*287.058*300.)` from `main` (m/s). -/
noncomputable def c0 : ℝ := Real.sqrt (1.4 * 287.058 * 300)

/-- Air density `rho0 = 1.4*98600./(c0*c0)` from `main` (kg/m^3). -/
noncomputable def rho0 : ℝ := 1.4 * 98600 / (c0 * c0)

/-- Rotation rate `omega = 236.` from `main` (rad/s). -/
def omega : ℝ := 236

/-- Translation of `np.arange(n)`: the list `[0, 1, ..., n-1]`. -/
def arange (n : ℕ) : List ℕ := List.range n

/-- Event alphabet for the effectful OpenMDAO API calls `main` issues, in
source order, with the arguments each call receives. -/
inductive Ev where
  | addSubsystem (name : String) (promotes promotesIn promotesOut : List String)
  | connect (src tgt : String)
  | addDesignVar (name : String) (lower upper : ℝ) (scaler : Option ℝ)
  | addObjective (name : String) (scaler : ℝ)
  | addConstraint (name : String) (equals : ℝ) (scaler : ℝ) (indices : List ℕ)
  | setDriver (cls : String)
  | setDriverOption (key value : String)
  | setup
  | finalSetup
  | clockRead
  | runDriver
  | makePlotsCall

/-- Outputs declared on the `IndepVarComp` in `main`, each with its initial
value array (scalars broadcast over the declared shape) and units string. -/
noncomputable def indepOutputs : List (String × List ℝ × String) :=
  [("rho", List.replicate num_nodes rho0, "kg/m**3"),
   ("mu", List.replicate num_nodes 1, "N/m**2*s"),
   ("asound", List.replicate num_nodes c0, "m/s"),
   ("v", List.replicate num_nodes 77.2, "m/s"),
   ("alpha", List.replicate num_nodes 0, "rad"),
   ("incidence", List.replicate num_nodes 0, "rad"),
   ("precone", [0], "deg"),
   ("omega", List.replicate num_nodes omega, "rad/s"),
   ("hub_diameter", List.replicate num_nodes hub_diameter, "cm"),
   ("prop_diameter", List.replicate num_nodes prop_diameter, "cm"),
   ("pitch", List.replicate num_nodes pitch, "rad"),
   ("chord_dv", List.replicate num_cp chord, "cm"),
   ("theta_dv", theta, "rad")]

/-- Event trace of one call of `main`, in the order the source issues the
calls: four subsystem additions (connections made purely by promotion), two
design variables, the objective, the constraint, driver selection and its
option, then `setup`, `final_setup`, a clock read, `run_driver`, a second
clock read, and `make_plots`. -/
noncomputable def mainEvents : List Ev :=
  [.addSubsystem "indep_var_comp" ["*"] [] [],
   .addSubsystem "geometry_group" []
     ["hub_diameter", "prop_diameter", "chord_dv", "theta_dv", "pitch"]
     ["radii", "dradii", "chord", "theta"],
   .addSubsystem "inflow_comp" []
     ["v", "omega", "radii", "precone"]
     ["Vx", "Vy"],
   .addSubsystem "ccblade_group" []
     ["radii", "dradii", "chord", "theta", "rho", "mu", "asound", "v",
      "omega", "Vx", "Vy", "precone", "hub_diameter", "prop_diameter"]
     ["thrust", "torque", "efficiency"],
   .addDesignVar "chord_dv" 1 20 (some 5e-2),
   .addDesignVar "theta_dv" (20 * Real.pi / 180) (90 * Real.pi / 180) none,
   .addObjective "efficiency" (-1),
   .addConstraint "thrust" 700 1e-3 (arange num_nodes),
   .setDriver "pyOptSparseDriver",
   .setDriverOption "optimizer" "SNOPT",
   .setup,
   .finalSetup,
   .clockRead,
   .runDriver,
   .clockRead,
   .makePlotsCall]

/-- Design-variable declarations of a trace, in order: name, lower bound,
upper bound, optional scaler. -/
def designVars (l : List Ev) : List (String × ℝ × ℝ × Option ℝ) :=
  l.filterMap fun e => match e with
    | .addDesignVar n lo hi s => some (n, lo, hi, s)
    | _ => none

/-- Objective declarations of a trace, in order: name and scaler. -/
def objectives (l : List Ev) : List (String × ℝ) :=
  l.filterMap fun e => match e with
    | .addObjective n s => some (n, s)
    | _ => none

/-- Constraint declarations of a trace, in order: name, equality target,
scaler, indices. -/
def constraints (l : List Ev) : List (String × ℝ × ℝ × List ℕ) :=
  l.filterMap fun e => match e with
    | .addConstraint n eq s idx => some (n, eq, s, idx)
    | _ => none

/-- Driver configuration of a trace: the driver class assignment and each
driver option set, in order. -/
def driverConfig (l : List Ev) : List (String × String) :=
  l.filterMap fun e => match e with
    | .setDriver c => some ("driver", c)
    | .setDriverOption k v => some (k, v)
    | _ => none

/-- Subsystem additions of a trace, in order: name, `promotes` list,
`promotes_inputs` list, `promotes_outputs` list. -/
def subsystems (l : List Ev) : List (String × List String × List String × List String) :=
  l.filterMap fun e => match e with
    | .addSubsystem n p pin pout => some (n, p, pin, pout)
    | _ => none

/-- Predicate picking out explicit `connect` calls. -/
def isConnect : Ev → Bool := fun e => match e with
  | .connect _ _ => true
  | _ => false

/-- Predicate picking out `run_driver` calls. -/
def isRunDriver : Ev → Bool := fun e => match e with
  | .runDriver => true
  | _ => false

/-- Predicate picking out `time.time()` clock reads. -/
def isClock : Ev → Bool := fun e => match e with
  | .clockRead => true
  | _ => false

/-- Lifecycle alphabet used to state ordering properties of the trace. -/
inductive LEv where
  | setup
  | finalSetup
  | runDriver
  | makePlotsCall
deriving DecidableEq

/-- Lifecycle projection of an event. -/
def lifeOf : Ev → Option LEv := fun e => match e with
  | .setup => some .setup
  | .finalSetup => some .finalSetup
  | .runDriver => some .runDriver
  | .makePlotsCall => some .makePlotsCall
  | _ => none

/-- Lifecycle subsequence of a trace. -/
def lifecycle (l : List Ev) : List LEv := l.filterMap lifeOf

/-- Events strictly between the first two clock reads of a trace: exactly
the work the returned elapsed time measures. -/
def betweenClocks (l : List Ev) : List Ev :=
  ((l.dropWhile fun e => !isClock e).drop 1).takeWhile fun e => !isClock e

/-- Elementwise universal quantification over a list, written as an
iterated conjunction so no membership hypothesis is needed. -/
def listForall {α : Type} (p : α → Prop) : List α → Prop
  | [] => True
  | x :: xs => p x ∧ listForall p xs

/-- Abstract problem state as `make_plots` observes it: `get_val` returns a
node-major array for each promoted name, and the ccblade component options
carry the blade count. -/
structure ProbState where
  getVal : String → List (List ℝ)
  numBlades : ℕ

/-- Row `node` of `prob.get_val(name)`, i.e. `prob.get_val(name)[node, :]`. -/
def row (p : ProbState) (name : String) (node : ℕ) : List ℝ :=
  (p.getVal name).getD node []

/-- Event alphabet for the plotting actions of `make_plots`: printing a
line, saving a figure whose single curve plots `y` against `x`, and
closing a figure. -/
inductive PlotEv where
  | printStr (s : String)
  | saveFig (fname : String) (x y : List ℝ)
  | closeFig

/-- Translation of `make_plots(prob)`: at node 0 it reads the radii, scales
the per-unit-span normal load `Np` and circumferential load `Tp` by the
blade count, then for each of the two figures prints the filename and saves
the figure before closing it. -/
def makePlots (p : ProbState) : List PlotEv :=
  let node := 0
  let radii := row p "radii" node
  let ccblade_normal_load :=
    (row p "ccblade_group.Np" node).map fun a => a * (p.numBlades : ℝ)
  let ccblade_circum_load :=
    (row p "ccblade_group.Tp" node).map fun a => a * (p.numBlades : ℝ)
  [.printStr "pyccblade_normal_load.png",
   .saveFig "pyccblade_normal_load.png" radii ccblade_normal_load,
   .closeFig,
   .printStr "pyccblade_circum_load.png",
   .saveFig "pyccblade_circum_load.png" radii ccblade_circum_load,
   .closeFig]

/-- Filenames saved by a plot trace, in order. -/
def savedFiles (l : List PlotEv) : List String :=
  l.filterMap fun e => match e with
    | .saveFig f _ _ => some f
    | _ => none

/-- Lines printed by a plot trace, in order. -/
def printedLines (l : List PlotEv) : List String :=
  l.filterMap fun e => match e with
    | .printStr s => some s
    | _ => none

/-- Invocation indices of `main` in the `__main__` block: one warm-up call
(index 0) followed by the twenty calls of the list comprehension. -/
def scriptMainCalls : List ℕ := 0 :: ((List.range 20).map fun i => i + 1)

/-- Walltimes collected into `times` by the `__main__` block, given the
elapsed time `run k` of the k-th invocation of `main`: only invocations 1
through 20, the warm-up result being discarded. -/
def timesList (run : ℕ → ℝ) : List ℝ :=
  (List.range 20).map fun i => run (i + 1)

/-- Translation of `np.mean`. -/
noncomputable def npMean (l : List ℝ) : ℝ := l.sum / l.length

/-- Translation of `np.std` (population standard deviation). -/
noncomputable def npStd (l : List ℝ) : ℝ :=
  Real.sqrt (npMean (l.map fun x => (x - npMean l) ^ 2))

/-- Statistics the `__main__` block prints: mean and standard deviation of
the collected walltimes. -/
noncomputable def printedStats (run : ℕ → ℝ) : ℝ × ℝ :=
  (npMean (timesList run), npStd (timesList run))

end CCBlade

namespace CCBlade

/-- C1: for equal-shaped `alpha` and `Re` and any `Mach`, `ccblade_interp`
performs no aerodynamic computation of its own: it returns exactly the two
columns of the external interpolant applied to the zipped alpha/Re rows,
and (the interpolant mapping rows to rows) each returned array has the same
shape as `alpha`. -/
theorem c1_interp_thin_wrapper {α μ : Type}
    (interp : List (α × α) → List (α × α)) (alpha Re : List α) (Mach : μ)
    (hlen : alpha.length = Re.length)
    (hinterp : ∀ x, (interp x).length = x.length) :
    ccblade_interp interp alpha Re Mach =
      ccblade_interp_claim interp alpha Re Mach ∧
    (ccblade_interp interp alpha Re Mach).1.length = alpha.length ∧
    (ccblade_interp interp alpha Re Mach).2.length = alpha.length := by
  refine ⟨rfl, ?_, ?_⟩ <;>
    simp [ccblade_interp, hinterp, List.length_zip, hlen]

/-- Witness for C1 at a concrete input: the identity interpolant on
two-element natural-number lists. -/
theorem c1_interp_thin_wrapper_witness :
    ccblade_interp (fun x : List (ℕ × ℕ) => x) [1, 2] [3, 4] (0 : ℕ) =
      ccblade_interp_claim (fun x : List (ℕ × ℕ) => x) [1, 2] [3, 4] (0 : ℕ) ∧
    (ccblade_interp (fun x : List (ℕ × ℕ) => x) [1, 2] [3, 4] (0 : ℕ)).1.length =
      ([1, 2] : List ℕ).length ∧
    (ccblade_interp (fun x : List (ℕ × ℕ) => x) [1, 2] [3, 4] (0 : ℕ)).2.length =
      ([1, 2] : List ℕ).length :=
  c1_interp_thin_wrapper (fun x => x) [1, 2] [3, 4] 0 rfl (fun _ => rfl)

/-- C2: `main` declares exactly two design variables, `chord_dv` with lower
bound 1, upper bound 20 and scaler 5e-2, and `theta_dv` with lower bound
20*pi/180 and upper bound 90*pi/180 radians, and no others. -/
theorem c2_design_vars :
    designVars mainEvents =
      [("chord_dv", (1 : ℝ), 20, some 5e-2),
       ("theta_dv", 20 * Real.pi / 180, 90 * Real.pi / 180, none)] := rfl

/-- C3: `main` sets a `pyOptSparseDriver` with the `optimizer` option set
to `SNOPT`, declares `efficiency` as the single objective with scaler -1,
and invokes `run_driver` exactly once. -/
theorem c3_driver_and_objective :
    driverConfig mainEvents =
      [("driver", "pyOptSparseDriver"), ("optimizer", "SNOPT")] ∧
    objectives mainEvents = [("efficiency", (-1 : ℝ))] ∧
    mainEvents.countP isRunDriver = 1 :=
  ⟨rfl, rfl, rfl⟩

/-- C4: `main` adds exactly one constraint, an equality constraint pinning
`thrust` to 700 with scaler 1e-3 over indices `arange(num_nodes)`, which is
`[0]` since `num_nodes = 1`. -/
theorem c4_single_constraint :
    constraints mainEvents = [("thrust", (700 : ℝ), 1e-3, arange num_nodes)] ∧
    arange num_nodes = [0] ∧
    num_nodes = 1 :=
  ⟨rfl, rfl, rfl⟩

/-- C5: the lifecycle calls of `main` occur in the order `setup`,
`final_setup`, `run_driver`, `make_plots`, each exactly once, so the plots
are never produced before the optimizer run completes. -/
theorem c5_plots_after_driver :
    lifecycle mainEvents = [.setup, .finalSetup, .runDriver, .makePlotsCall] := rfl

/-- C6: `make_plots` produces exactly the two files
`pyccblade_normal_load.png` then `pyccblade_circum_load.png`, printing each
filename before saving it, and the saved figures plot node-0 `Np` and `Tp`
scaled by the blade count against the radii. -/
theorem c6_make_plots (p : ProbState) :
    savedFiles (makePlots p) =
      ["pyccblade_normal_load.png", "pyccblade_circum_load.png"] ∧
    printedLines (makePlots p) =
      ["pyccblade_normal_load.png", "pyccblade_circum_load.png"] ∧
    makePlots p =
      [.printStr "pyccblade_normal_load.png",
       .saveFig "pyccblade_normal_load.png" (row p "radii" 0)
         ((row p "ccblade_group.Np" 0).map fun a => a * (p.numBlades : ℝ)),
       .closeFig,
       .printStr "pyccblade_circum_load.png",
       .saveFig "pyccblade_circum_load.png" (row p "radii" 0)
         ((row p "ccblade_group.Tp" 0).map fun a => a * (p.numBlades : ℝ)),
       .closeFig] :=
  ⟨rfl, rfl, rfl⟩

/-- C7: `main` wires the four subsystems purely by promoted names, with
exactly the promotion lists of the source, and makes no explicit `connect`
call. -/
theorem c7_promoted_wiring :
    subsystems mainEvents =
      [("indep_var_comp", ["*"], [], []),
       ("geometry_group", [],
        ["hub_diameter", "prop_diameter", "chord_dv", "theta_dv", "pitch"],
        ["radii", "dradii", "chord", "theta"]),
       ("inflow_comp", [],
        ["v", "omega", "radii", "precone"],
        ["Vx", "Vy"]),
       ("ccblade_group", [],
        ["radii", "dradii", "chord", "theta", "rho", "mu", "asound", "v",
         "omega", "Vx", "Vy", "precone", "hub_diameter", "prop_diameter"],
        ["thrust", "torque", "efficiency"])] ∧
    mainEvents.countP isConnect = 0 :=
  ⟨rfl, rfl⟩

/-- C8: `ccblade_interp` is insensitive to its `Mach` argument: any two
Mach values give identical results. -/
theorem c8_mach_insensitive {α μ : Type}
    (interp : List (α × α) → List (α × α)) (alpha Re : List α)
    (Mach1 Mach2 : μ) :
    ccblade_interp interp alpha Re Mach1 =
      ccblade_interp interp alpha Re Mach2 := rfl

/-- C9: the initial design point lies inside the declared design-variable
bounds: every entry of the initial `chord_dv` vector (the value 10
broadcast over the control points) satisfies 1 <= x <= 20, and every entry
of the initial `theta_dv` vector `linspace(65, 25, 6)*pi/180` satisfies
20*pi/180 <= x <= 90*pi/180. -/
theorem c9_initial_point_inside_bounds :
    listForall (fun x => (1 : ℝ) ≤ x ∧ x ≤ 20) (List.replicate num_cp chord) ∧
    listForall (fun x => 20 * Real.pi / 180 ≤ x ∧ x ≤ 90 * Real.pi / 180)
      theta := by
  have hpi : (0 : ℝ) < Real.pi := Real.pi_pos
  constructor
  · simp only [num_cp, chord, List.replicate, listForall]
    norm_num
  · simp only [theta, linspace, num_cp, List.range_succ, List.range_zero,
      List.map_append, List.map_cons, List.map_nil, List.nil_append,
      List.cons_append, listForall]
    norm_num
    refine ⟨?_, ?_, ?_, ?_, ?_, ?_⟩ <;> constructor <;> nlinarith [hpi]

/-- C10: the `__main__` block invokes `main` 21 times (one warm-up call and
twenty timed calls), the elapsed time each invocation returns covers
exactly the `run_driver` call (the events between the two clock reads),
the collected walltimes are those of invocations 1 through 20, and the
printed statistics do not depend on the warm-up invocation. -/
theorem c10_script_timing :
    scriptMainCalls.length = 21 ∧
    betweenClocks mainEvents = [Ev.runDriver] ∧
    (∀ run : ℕ → ℝ, (timesList run).length = 20) ∧
    ∀ run1 run2 : ℕ → ℝ, (∀ k, k ≠ 0 → run1 k = run2 k) →
      printedStats run1 = printedStats run2 := by
  refine ⟨rfl, rfl, fun run => by simp [timesList], ?_⟩
  intro run1 run2 h
  have ht : timesList run1 = timesList run2 := by
    unfold timesList
    refine List.map_congr_left ?_
    intro i _
    exact h (i + 1) (Nat.succ_ne_zero i)
  unfold printedStats
  rw [ht]

/-- Witness for C10: two concrete elapsed-time functions that differ only
on the warm-up invocation yield identical printed statistics. -/
theorem c10_script_timing_witness :
    printedStats (fun _ => (0 : ℝ)) =
      printedStats (fun k => if k = 0 then (1 : ℝ) else 0) :=
  c10_script_timing.2.2.2 (fun _ => (0 : ℝ))
    (fun k => if k = 0 then (1 : ℝ) else 0)
    (fun _ hk => (if_neg hk).symm)

end CCBlade
